import Mathlib

/-!
Verification of the greenmask restore slice: the `RandomInt` transformer
(`internal/db/postgres/transformers/random_int.go`) and the restore
transaction controller ("restore base", known here through its test file in
the `restorers` package and through the specification).

Shallow embedding conventions:
* Go `int64` values are modelled as `Int` (the transformer only compares and
  stores them; no overflow arithmetic occurs in the translated code).
* A `toolkit.Parameterizer` is modelled as a stream of scan results together
  with a scan counter, so that "how many times a parameter was scanned" is an
  observable fact of the model; dynamic parameters may yield a different
  value at each scan, static ones yield a constant stream.
* In-place mutation of a `toolkit.Record` is modelled by returning the
  record buffer explicitly from every operation that may mutate it.
* `fmt.Errorf` error values are modelled as their formatted strings.
-/

namespace Greenmask

/-- A raw column value of a record: the decoded integer payload together
with the null flag (`toolkit.RawValue.IsNull`). -/
structure RawValue where
  data : Int
  isNull : Bool
deriving DecidableEq

/-- One decoded row (`toolkit.Record`): ordered column slots addressable by
column index. -/
structure Record where
  slots : List RawValue
deriving DecidableEq

/-- `Record.GetRawColumnValueByIdx`: read the raw value at a column index;
fails when the index is out of range. -/
def Record.GetRawColumnValueByIdx (r : Record) (idx : Nat) : Except String RawValue :=
  match r.slots[idx]? with
  | some v => Except.ok v
  | none => Except.error "column index out of range"

/-- `Record.SetColumnValueByIdx`: overwrite the raw value at a column index
with a (non-null) integer; fails, without mutating, when the index is out of
range. -/
def Record.SetColumnValueByIdx (r : Record) (idx : Nat) (v : Int) : Except String Record :=
  if idx < r.slots.length then
    Except.ok ⟨r.slots.set idx ⟨v, false⟩⟩
  else
    Except.error "column index out of range"

/-- A `toolkit.Parameterizer` handle: `scans n` is the result of the n-th
call to `Scan`, and `scanCount` counts the `Scan` calls made so far.  A
static parameter has a constant `scans` stream; a dynamic parameter may
yield a different value on each row. -/
structure Param (α : Type) where
  scans : Nat → Except String α
  scanCount : Nat

/-- `Parameterizer.Scan`: yield the next scan result and advance the
counter (the counter advances whether or not the scan succeeded). -/
def Param.scan {α : Type} (p : Param α) : Except String α × Param α :=
  (p.scans p.scanCount, ⟨p.scans, p.scanCount + 1⟩)

/-- The schema/driver collaborator: `GetColumnByName(name)` resolves a
column name to its index and type descriptor, or reports not-found. -/
structure Driver where
  getColumnByName : String → Option (Nat × String)

/-- Modelled from the spec: `toolkit.RandomInt` (the `toolkit` package is
not under src/) draws a value uniformly from the closed range
`[minVal, maxVal]`; the pseudo-random generator is modelled as a natural
number state reduced modulo the range size. -/
def RandomInt (g : Nat) (minVal maxVal : Int) : Int :=
  minVal + ((g % (maxVal - minVal + 1).toNat : Nat) : Int)

/-- Modelled from the spec: one step of the pseudo-random generator state
(`math/rand` is not under src/); a small linear congruential advance (the
spec requires no particular generator, only a deterministic seeded
state). -/
def randStep (g : Nat) : Nat :=
  (75 * g + 74) % 65537

/-- The `RandomIntTransformer` instance state, mirroring the Go struct
field for field (the `*rand.Rand` source is the modelled generator state). -/
structure RandomIntTransformer where
  columnName : String
  keepNull : Bool
  rand : Nat
  affectedColumns : List (Nat × String)
  columnIdx : Nat
  columnParam : Param String
  minParam : Param Int
  maxParam : Param Int
  keepNullParam : Param Bool

/-- `NewRandomIntTransformer`: scans the `column` parameter, resolves the
column against the driver, builds the singleton affected-columns map, scans
`keep_null`, and stores the (unscanned) `min`/`max` parameter handles.  The
wall-clock seeding of the generator is modelled by the explicit `seed`
argument.  The `min >= max` construction-time validation present in the
source only as a commented-out block is (faithfully) absent. -/
def NewRandomIntTransformer (driver : Driver) (seed : Nat)
    (columnParam : Param String) (minParam : Param Int) (maxParam : Param Int)
    (keepNullParam : Param Bool) : Except String RandomIntTransformer :=
  match columnParam.scan with
  | (Except.error e, _) => Except.error ("unable to scan \"column\" param: " ++ e)
  | (Except.ok columnName, columnParam2) =>
    match driver.getColumnByName columnName with
    | none => Except.error ("column with name " ++ columnName ++ " is not found")
    | some (idx, _) =>
      match keepNullParam.scan with
      | (Except.error e, _) => Except.error ("unable to scan \"keep_null\" param: " ++ e)
      | (Except.ok keepNull, keepNullParam2) =>
        Except.ok
          { columnName := columnName
            keepNull := keepNull
            rand := seed
            affectedColumns := [(idx, columnName)]
            columnIdx := idx
            columnParam := columnParam2
            minParam := minParam
            maxParam := maxParam
            keepNullParam := keepNullParam2 }

/-- `RandomIntTransformer.GetAffectedColumns`: the map built at
construction. -/
def RandomIntTransformer.GetAffectedColumns (rit : RandomIntTransformer) :
    List (Nat × String) :=
  rit.affectedColumns

/-- `RandomIntTransformer.Init`: a no-op returning nil error. -/
def RandomIntTransformer.Init (rit : RandomIntTransformer) :
    Except String Unit × RandomIntTransformer :=
  (Except.ok (), rit)

/-- `RandomIntTransformer.Done`: a no-op returning nil error. -/
def RandomIntTransformer.Done (rit : RandomIntTransformer) :
    Except String Unit × RandomIntTransformer :=
  (Except.ok (), rit)

/-- Outcome of one `Transform` call: `result` is the returned
`(*toolkit.Record, error)` pair (`Except.error` means a nil record was
returned), `buffer` is the state of the caller's record object after the
call (capturing in-place mutation), and `self` is the transformer state
after the call. -/
structure TransformCallResult where
  result : Except String Record
  buffer : Record
  self : RandomIntTransformer

/-- `RandomIntTransformer.Transform`: scans `min` and `max` (on every call),
rejects an empty range, reads the target column, passes nulls through when
`keepNull` is set, and otherwise overwrites the target column in place with
a random integer drawn from `[minVal, maxVal]`. -/
def RandomIntTransformer.Transform (rit : RandomIntTransformer) (r : Record) :
    TransformCallResult :=
  match rit.minParam.scan with
  | (Except.error e, minParam2) =>
    ⟨Except.error ("unable to scan \"min\" param: " ++ e), r,
      { rit with minParam := minParam2 }⟩
  | (Except.ok minVal, minParam2) =>
    match rit.maxParam.scan with
    | (Except.error e, maxParam2) =>
      ⟨Except.error ("unable to scan \"max\" param: " ++ e), r,
        { rit with minParam := minParam2, maxParam := maxParam2 }⟩
    | (Except.ok maxVal, maxParam2) =>
      if minVal ≥ maxVal then
        ⟨Except.error ("max value must be greater than min: got min = " ++
            toString minVal ++ " max = " ++ toString maxVal), r,
          { rit with minParam := minParam2, maxParam := maxParam2 }⟩
      else
        match r.GetRawColumnValueByIdx rit.columnIdx with
        | Except.error e =>
          ⟨Except.error ("unable to scan value: " ++ e), r,
            { rit with minParam := minParam2, maxParam := maxParam2 }⟩
        | Except.ok val =>
          if val.isNull && rit.keepNull then
            ⟨Except.ok r, r, { rit with minParam := minParam2, maxParam := maxParam2 }⟩
          else
            match r.SetColumnValueByIdx rit.columnIdx (RandomInt rit.rand minVal maxVal) with
            | Except.error e =>
              ⟨Except.error ("unable to set new value: " ++ e), r,
                { rit with minParam := minParam2, maxParam := maxParam2, rand := randStep rit.rand }⟩
            | Except.ok r2 =>
              ⟨Except.ok r2, r2,
                { rit with minParam := minParam2, maxParam := maxParam2, rand := randStep rit.rand }⟩

/-- Column metadata attached to a column-typed parameter
(`toolkit.ColumnProperties`). -/
structure ColumnProperties where
  affected : Bool
  allowedTypes : List String

/-- `toolkit.NewColumnProperties`. -/
def NewColumnProperties : ColumnProperties :=
  ⟨false, []⟩

/-- `ColumnProperties.SetAffected`. -/
def ColumnProperties.SetAffected (cp : ColumnProperties) (b : Bool) : ColumnProperties :=
  { cp with affected := b }

/-- `ColumnProperties.SetAllowedColumnTypes`. -/
def ColumnProperties.SetAllowedColumnTypes (cp : ColumnProperties) (ts : List String) :
    ColumnProperties :=
  { cp with allowedTypes := ts }

/-- Static metadata of one transformer parameter
(`toolkit.ParameterDefinition`). -/
structure ParameterDefinition where
  name : String
  description : String
  required : Bool
  isColumn : Bool
  columnAffected : Bool
  allowedColumnTypes : List String
  linkParameter : Option String
  dynamicModeSupport : Bool
  defaultValue : Option String
deriving DecidableEq

/-- `toolkit.MustNewParameterDefinition`: a fresh definition with all flags
unset. -/
def MustNewParameterDefinition (name description : String) : ParameterDefinition :=
  ⟨name, description, false, false, false, [], none, false, none⟩

/-- `ParameterDefinition.SetIsColumn`. -/
def ParameterDefinition.SetIsColumn (p : ParameterDefinition) (cp : ColumnProperties) :
    ParameterDefinition :=
  { p with
    isColumn := true
    columnAffected := cp.affected
    allowedColumnTypes := cp.allowedTypes }

/-- `ParameterDefinition.SetRequired`. -/
def ParameterDefinition.SetRequired (p : ParameterDefinition) (b : Bool) :
    ParameterDefinition :=
  { p with required := b }

/-- `ParameterDefinition.SetLinkParameter`. -/
def ParameterDefinition.SetLinkParameter (p : ParameterDefinition) (s : String) :
    ParameterDefinition :=
  { p with linkParameter := some s }

/-- `ParameterDefinition.SetDynamicModeSupport`. -/
def ParameterDefinition.SetDynamicModeSupport (p : ParameterDefinition) (b : Bool) :
    ParameterDefinition :=
  { p with dynamicModeSupport := b }

/-- `ParameterDefinition.SetDefaultValue` (the raw `toolkit.ParamsValue`
bytes are modelled as a string). -/
def ParameterDefinition.SetDefaultValue (p : ParameterDefinition) (v : String) :
    ParameterDefinition :=
  { p with defaultValue := some v }

/-- `utils.TransformerProperties`. -/
structure TransformerProperties where
  name : String
  description : String
deriving DecidableEq

/-- `utils.TransformerDefinition`: properties plus the ordered parameter
definitions (the constructor function itself is `NewRandomIntTransformer`
above). -/
structure TransformerDefinition where
  properties : TransformerProperties
  parameters : List ParameterDefinition
deriving DecidableEq

/-- `RandomIntTransformerDefinition`: the registered definition of the
`RandomInt` transformer, mirroring the Go builder chain field for field. -/
def RandomIntTransformerDefinition : TransformerDefinition :=
  ⟨⟨"RandomInt", "Generate random int value from min to max"⟩,
    [((MustNewParameterDefinition "column" "column name").SetIsColumn
        ((NewColumnProperties.SetAffected true).SetAllowedColumnTypes
          ["int2", "int4", "int8", "numeric"])).SetRequired true,
      ((MustNewParameterDefinition "min" "min int value threshold").SetRequired
          true |>.SetLinkParameter "column").SetDynamicModeSupport true,
      ((MustNewParameterDefinition "max" "max int value threshold").SetRequired
          true |>.SetLinkParameter "column").SetDynamicModeSupport true,
      (MustNewParameterDefinition "keep_null"
          "indicates that NULL values must not be replaced with transformed values").SetDefaultValue
        "true"]⟩

/-- Modelled from the spec: the parameter framework (the `toolkit` package
is not under src/) resolves an unsupplied parameter to its declared default
value. -/
def resolveRawParamValue (supplied : Option String) (d : ParameterDefinition) :
    Option String :=
  match supplied with
  | some v => some v
  | none => d.defaultValue

/-- Modelled from the spec: the parameter framework scans a raw boolean
parameter value into a `Bool`, failing on anything but `true`/`false`. -/
def scanBool (raw : String) : Except String Bool :=
  if raw = "true" then Except.ok true
  else if raw = "false" then Except.ok false
  else Except.error ("unable to parse bool value: " ++ raw)

/-- One catalog entry (`toc.Entry`); the Go struct holds nilable pointers,
modelled as options where the tests exercise nil. -/
structure Entry where
  Namespace : String
  Tag : String
  FileName : Option String
deriving DecidableEq

/-- Per-run restore settings (`pgrestore.DataSectionSettings`), the fields
the restore base consumes. -/
structure DataSectionSettings where
  DisableTriggers : Bool
  UseSessionReplicationRoleReplica : Bool
  SuperUser : String
deriving DecidableEq

/-- Run-length compression: the concrete invertible codec standing for the
gzip stream (the spec leaves the on-disk codec out of scope; what matters
for the restore base contract is that fetching decompresses what storing
compressed). -/
def rleCompress : List Nat → List (Nat × Nat)
  | [] => []
  | x :: xs =>
    match rleCompress xs with
    | [] => [(1, x)]
    | (n, y) :: rest => if x = y then (n + 1, y) :: rest else (1, x) :: (n, y) :: rest

/-- Run-length decompression, inverse of `rleCompress`. -/
def rleDecompress : List (Nat × Nat) → List Nat
  | [] => []
  | (n, x) :: rest => List.replicate n x ++ rleDecompress rest

/-- The object-store collaborator (`storages.Storager.GetObject`): stored
objects are compressed byte streams keyed by file name. -/
structure Storage where
  getObject : String → Except String (List (Nat × Nat))

/-- The restore transaction controller state (`restoreBase`): the bound
entry, the object-store handle, and the run settings. -/
structure restoreBase where
  entry : Option Entry
  st : Storage
  opt : DataSectionSettings

/-- `newRestoreBase`. -/
def newRestoreBase (entry : Option Entry) (st : Storage) (opt : DataSectionSettings) :
    restoreBase :=
  ⟨entry, st, opt⟩

/-- The observable database session state the restore base manipulates:
the connection's login role (immutable; what `RESET ROLE` falls back to),
the current role reported by `current_user`, whether the target relation's
triggers are enabled, and `session_replication_role`. -/
structure SessionState where
  sessionRole : String
  currentRole : String
  triggersEnabled : Bool
  replicationRole : String
deriving DecidableEq

/-- Modelled from the spec: `restoreBase.setupTx` (the `restorers` package
implementation is not under src/, only its tests are).  In order: if a
privileged role is configured, switch to it; if trigger suppression is
configured, disable the target relation's triggers; if replica mode is
configured, set the session replication role to `replica`. -/
def restoreBase.setupTx (rb : restoreBase) (s : SessionState) : SessionState :=
  let s := if rb.opt.SuperUser ≠ "" then { s with currentRole := rb.opt.SuperUser } else s
  let s := if rb.opt.DisableTriggers then { s with triggersEnabled := false } else s
  if rb.opt.UseSessionReplicationRoleReplica then { s with replicationRole := "replica" } else s

/-- Modelled from the spec: `restoreBase.resetTx` (the `restorers` package
implementation is not under src/, only its tests are).  The inverse steps
in reverse order: if replica mode is configured, set the session
replication role back to the default `origin`; if trigger suppression is
configured, re-enable the target relation's triggers; if a privileged role
is configured, reset the current role to the session's login role
(`RESET ROLE`).  The `origin`/enabled targets match the expectations of
`Test_restoreBase_resetTx`. -/
def restoreBase.resetTx (rb : restoreBase) (s : SessionState) : SessionState :=
  let s := if rb.opt.UseSessionReplicationRoleReplica then { s with replicationRole := "origin" } else s
  let s := if rb.opt.DisableTriggers then { s with triggersEnabled := true } else s
  if rb.opt.SuperUser ≠ "" then { s with currentRole := s.sessionRole } else s

/-- Modelled from the spec: `restoreBase.getObject` (the `restorers`
package implementation is not under src/, only its tests are): fetches the
entry's backing object from the object store and wraps it in a
decompressing reader, returning the readable decompressed stream. -/
def restoreBase.getObject (rb : restoreBase) : Except String (List Nat) :=
  match rb.entry with
  | none => Except.error "entry is nil"
  | some e =>
    match e.FileName with
    | none => Except.error "file name is not specified"
    | some f =>
      match rb.st.getObject f with
      | Except.error err => Except.error err
      | Except.ok compressed => Except.ok (rleDecompress compressed)

/-- A concrete driver: the target relation has a single int4 column `id`
at index 0. -/
def cDriver : Driver :=
  ⟨fun n => if n = "id" then some (0, "int4") else none⟩

/-- A concrete static `column` parameter resolving to `id`. -/
def cColumnParam : Param String :=
  ⟨fun _ => Except.ok "id", 0⟩

/-- A concrete static `column` parameter naming a column absent from the
relation. -/
def cMissingColumnParam : Param String :=
  ⟨fun _ => Except.ok "no_such_column", 0⟩

/-- A concrete static `min` parameter resolving to 1. -/
def cMinParam : Param Int :=
  ⟨fun _ => Except.ok 1, 0⟩

/-- A concrete static `max` parameter resolving to 10. -/
def cMaxParam : Param Int :=
  ⟨fun _ => Except.ok 10, 0⟩

/-- A concrete static `min` parameter resolving to 5 (for the malformed
pair `min = 5 >= max = 3`). -/
def cBadMinParam : Param Int :=
  ⟨fun _ => Except.ok 5, 0⟩

/-- A concrete static `max` parameter resolving to 3 (for the malformed
pair `min = 5 >= max = 3`). -/
def cBadMaxParam : Param Int :=
  ⟨fun _ => Except.ok 3, 0⟩

/-- A concrete static `keep_null` parameter resolving to `true`. -/
def cKeepNullParam : Param Bool :=
  ⟨fun _ => Except.ok true, 0⟩

/-- A concrete two-column record with a non-null target column. -/
def cRecord : Record :=
  ⟨[⟨5, false⟩, ⟨7, false⟩]⟩

/-- A concrete two-column record whose target column is null. -/
def cNullRecord : Record :=
  ⟨[⟨0, true⟩, ⟨7, false⟩]⟩

/-- The transformer instance `NewRandomIntTransformer` builds from
`cDriver`, seed 7 and the well-formed concrete parameters. -/
def cRIT : RandomIntTransformer :=
  ⟨"id", true, 7, [(0, "id")], 0, ⟨fun _ => Except.ok "id", 1⟩, cMinParam, cMaxParam,
    ⟨fun _ => Except.ok true, 1⟩⟩

/-- The transformer instance built from the malformed bound pair
`min = 5, max = 3`. -/
def cBadRIT : RandomIntTransformer :=
  ⟨"id", true, 7, [(0, "id")], 0, ⟨fun _ => Except.ok "id", 1⟩, cBadMinParam, cBadMaxParam,
    ⟨fun _ => Except.ok true, 1⟩⟩

/-- Concrete restore settings with all three session mutations enabled. -/
def cSettings : DataSectionSettings :=
  ⟨true, true, "postgres"⟩

/-- A concrete catalog entry (`table public.orders`, backed by
`test.tar.gz`). -/
def cEntry : Entry :=
  ⟨"public", "orders", some "test.tar.gz"⟩

/-- A concrete fresh unprivileged session before any setup. -/
def cSession : SessionState :=
  ⟨"non_super_user", "non_super_user", true, "origin"⟩

/-- A concrete payload for the fetch round-trip. -/
def cPayload : List Nat :=
  [2, 0, 1, 7, 7, 7]

/-- An object store holding the compressed concrete payload under the
entry's file name. -/
def cStorage : Storage :=
  ⟨fun f => if f = "test.tar.gz" then Except.ok (rleCompress cPayload)
    else Except.error "object not found"⟩

/-- Observable scan counters of the `min`/`max` parameter handles after
construction and after one `Transform` call: the count stored at
construction, and the `min` and `max` counts after transforming one
record. -/
def minMaxScanCountsAfterConstructionAndTransform
    (x : Except String RandomIntTransformer) (r : Record) : Nat × Nat × Nat :=
  match x with
  | Except.ok rit =>
    (rit.minParam.scanCount, (rit.Transform r).self.minParam.scanCount,
      (rit.Transform r).self.maxParam.scanCount)
  | Except.error _ => (99, 99, 99)

/-- Whether a construction attempt produced a usable instance. -/
def constructionSucceeded (x : Except String RandomIntTransformer) : Bool :=
  match x with
  | Except.ok _ => true
  | Except.error _ => false

theorem rleDecompress_rleCompress (xs : List Nat) :
    rleDecompress (rleCompress xs) = xs := by
  induction xs with
  | nil => rfl
  | cons x xs ih =>
    cases h : rleCompress xs with
    | nil =>
      rw [h] at ih
      simp only [rleDecompress] at ih
      simp [rleCompress, h, rleDecompress, ih.symm]
    | cons p rest =>
      obtain ⟨n, y⟩ := p
      rw [h] at ih
      by_cases hxy : x = y
      · subst hxy
        simp only [rleCompress, h, if_pos rfl, rleDecompress, List.replicate_succ,
          List.cons_append] at *
        rw [ih]
      · simp only [rleCompress, h, if_neg hxy, rleDecompress, List.replicate,
          List.cons_append, List.nil_append] at *
        rw [ih]

theorem RandomInt_bounds (g : Nat) (minVal maxVal : Int) (h : minVal < maxVal) :
    minVal ≤ RandomInt g minVal maxVal ∧ RandomInt g minVal maxVal ≤ maxVal := by
  unfold RandomInt
  have hpos : 0 < (maxVal - minVal + 1).toNat := by omega
  have hlt : g % (maxVal - minVal + 1).toNat < (maxVal - minVal + 1).toNat :=
    Nat.mod_lt _ hpos
  omega

theorem NewRandomIntTransformer_ok (driver : Driver) (seed : Nat)
    (cp : Param String) (mp mxp : Param Int) (kp : Param Bool)
    (name : String) (idx : Nat) (td : String) (kn : Bool)
    (hcp : cp.scans cp.scanCount = Except.ok name)
    (hdr : driver.getColumnByName name = some (idx, td))
    (hkp : kp.scans kp.scanCount = Except.ok kn) :
    NewRandomIntTransformer driver seed cp mp mxp kp =
      Except.ok ⟨name, kn, seed, [(idx, name)], idx, ⟨cp.scans, cp.scanCount + 1⟩,
        mp, mxp, ⟨kp.scans, kp.scanCount + 1⟩⟩ := by
  simp only [NewRandomIntTransformer, Param.scan, hcp, hdr, hkp]

theorem Transform_min_ge_max (rit : RandomIntTransformer) (r : Record)
    (minVal maxVal : Int)
    (hm : rit.minParam.scans rit.minParam.scanCount = Except.ok minVal)
    (hM : rit.maxParam.scans rit.maxParam.scanCount = Except.ok maxVal)
    (hge : maxVal ≤ minVal) :
    (rit.Transform r).result = Except.error
      ("max value must be greater than min: got min = " ++ toString minVal ++
        " max = " ++ toString maxVal) ∧
    (rit.Transform r).buffer = r := by
  have hif : minVal ≥ maxVal := hge
  simp [RandomIntTransformer.Transform, Param.scan, hm, hM, hif]

theorem Transform_success (rit : RandomIntTransformer) (r : Record)
    (minVal maxVal : Int) (val : RawValue)
    (hm : rit.minParam.scans rit.minParam.scanCount = Except.ok minVal)
    (hM : rit.maxParam.scans rit.maxParam.scanCount = Except.ok maxVal)
    (hlt : minVal < maxVal)
    (hget : r.GetRawColumnValueByIdx rit.columnIdx = Except.ok val)
    (hnn : val.isNull = false ∨ rit.keepNull = false) :
    (rit.Transform r).buffer =
      ⟨r.slots.set rit.columnIdx ⟨RandomInt rit.rand minVal maxVal, false⟩⟩ ∧
    (rit.Transform r).result = Except.ok (rit.Transform r).buffer := by
  have hnge : ¬ (minVal ≥ maxVal) := by omega
  have hidx : rit.columnIdx < r.slots.length := by
    by_contra hcon
    have hnone : r.slots[rit.columnIdx]? = none := by
      rw [List.getElem?_eq_none_iff]
      omega
    simp [Record.GetRawColumnValueByIdx, hnone] at hget
  have hkeep : ¬ (val.isNull = true ∧ rit.keepNull = true) := by
    rcases hnn with h | h <;> simp [h]
  simp [RandomIntTransformer.Transform, Param.scan, hm, hM, hnge, hget, hkeep,
    Record.SetColumnValueByIdx, hidx]

theorem Transform_null_kept (rit : RandomIntTransformer) (r : Record)
    (minVal maxVal : Int) (val : RawValue)
    (hm : rit.minParam.scans rit.minParam.scanCount = Except.ok minVal)
    (hM : rit.maxParam.scans rit.maxParam.scanCount = Except.ok maxVal)
    (hlt : minVal < maxVal)
    (hget : r.GetRawColumnValueByIdx rit.columnIdx = Except.ok val)
    (hnull : val.isNull = true) (hkn : rit.keepNull = true) :
    (rit.Transform r).result = Except.ok r ∧ (rit.Transform r).buffer = r := by
  have hnge : ¬ (minVal ≥ maxVal) := by omega
  have hkeep : (val.isNull && rit.keepNull) = true := by simp [hnull, hkn]
  simp [RandomIntTransformer.Transform, Param.scan, hm, hM, hnge, hget, hkeep]

theorem Transform_preserves_affectedColumns (rit : RandomIntTransformer) (r : Record) :
    (rit.Transform r).self.affectedColumns = rit.affectedColumns := by
  cases h1 : rit.minParam.scans rit.minParam.scanCount with
  | error e1 => simp [RandomIntTransformer.Transform, Param.scan, h1]
  | ok minVal =>
    cases h2 : rit.maxParam.scans rit.maxParam.scanCount with
    | error e2 => simp [RandomIntTransformer.Transform, Param.scan, h1, h2]
    | ok maxVal =>
      by_cases hge : minVal ≥ maxVal
      · simp [RandomIntTransformer.Transform, Param.scan, h1, h2, hge]
      · cases h3 : r.GetRawColumnValueByIdx rit.columnIdx with
        | error e3 => simp [RandomIntTransformer.Transform, Param.scan, h1, h2, hge, h3]
        | ok val =>
          by_cases hkeep : val.isNull = true ∧ rit.keepNull = true
          · simp [RandomIntTransformer.Transform, Param.scan, h1, h2, hge, h3, hkeep]
          · cases h4 : r.SetColumnValueByIdx rit.columnIdx (RandomInt rit.rand minVal maxVal) with
            | error e4 =>
              simp [RandomIntTransformer.Transform, Param.scan, h1, h2, hge, h3,
                hkeep, h4]
            | ok r2 =>
              simp [RandomIntTransformer.Transform, Param.scan, h1, h2, hge, h3,
                hkeep, h4]

theorem Transform_scan_counts (rit : RandomIntTransformer) (r : Record) (minVal : Int)
    (hm : rit.minParam.scans rit.minParam.scanCount = Except.ok minVal) :
    (rit.Transform r).self.minParam.scanCount = rit.minParam.scanCount + 1 ∧
    (rit.Transform r).self.maxParam.scanCount = rit.maxParam.scanCount + 1 := by
  cases h2 : rit.maxParam.scans rit.maxParam.scanCount with
  | error e2 => simp [RandomIntTransformer.Transform, Param.scan, hm, h2]
  | ok maxVal =>
    by_cases hge : minVal ≥ maxVal
    · simp [RandomIntTransformer.Transform, Param.scan, hm, h2, hge]
    · cases h3 : r.GetRawColumnValueByIdx rit.columnIdx with
      | error e3 => simp [RandomIntTransformer.Transform, Param.scan, hm, h2, hge, h3]
      | ok val =>
        by_cases hkeep : val.isNull = true ∧ rit.keepNull = true
        · simp [RandomIntTransformer.Transform, Param.scan, hm, h2, hge, h3, hkeep]
        · cases h4 : r.SetColumnValueByIdx rit.columnIdx (RandomInt rit.rand minVal maxVal) with
          | error e4 =>
            simp [RandomIntTransformer.Transform, Param.scan, hm, h2, hge, h3,
              hkeep, h4]
          | ok r2 =>
            simp [RandomIntTransformer.Transform, Param.scan, hm, h2, hge, h3,
              hkeep, h4]

theorem Transform_error_buffer_eq (rit : RandomIntTransformer) (r : Record)
    (e : String) (herr : (rit.Transform r).result = Except.error e) :
    (rit.Transform r).buffer = r := by
  cases h1 : rit.minParam.scans rit.minParam.scanCount with
  | error e1 => simp [RandomIntTransformer.Transform, Param.scan, h1]
  | ok minVal =>
    cases h2 : rit.maxParam.scans rit.maxParam.scanCount with
    | error e2 => simp [RandomIntTransformer.Transform, Param.scan, h1, h2]
    | ok maxVal =>
      by_cases hge : minVal ≥ maxVal
      · simp [RandomIntTransformer.Transform, Param.scan, h1, h2, hge]
      · cases h3 : r.GetRawColumnValueByIdx rit.columnIdx with
        | error e3 => simp [RandomIntTransformer.Transform, Param.scan, h1, h2, hge, h3]
        | ok val =>
          by_cases hkeep : val.isNull = true ∧ rit.keepNull = true
          · simp [RandomIntTransformer.Transform, Param.scan, h1, h2, hge, h3, hkeep]
          · cases h4 : r.SetColumnValueByIdx rit.columnIdx (RandomInt rit.rand minVal maxVal) with
            | error e4 =>
              simp [RandomIntTransformer.Transform, Param.scan, h1, h2, hge, h3,
                hkeep, h4]
            | ok r2 =>
              exfalso
              simp [RandomIntTransformer.Transform, Param.scan, h1, h2, hge, h3,
                hkeep, h4] at herr

/-- C1: for every restore settings configuration, `setupTx` followed
immediately by `resetTx` on the same transaction restores the session's
current role, the target relation's trigger-enabled state, and the session
replication role exactly to their pre-setup values (a fresh session:
current role equal to the login role, triggers enabled, replication role
`origin`), teardown performing the inverse steps in reverse order. -/
theorem claim1_setup_then_teardown_restores_session
    (entry : Option Entry) (st : Storage) (opt : DataSectionSettings) (s : SessionState)
    (hrole : s.currentRole = s.sessionRole)
    (htrig : s.triggersEnabled = true)
    (hrepl : s.replicationRole = "origin") :
    (newRestoreBase entry st opt).resetTx ((newRestoreBase entry st opt).setupTx s) = s := by
  obtain ⟨sr, cr, tg, rr⟩ := s
  simp only [SessionState.mk.injEq] at hrole htrig hrepl ⊢
  unfold newRestoreBase restoreBase.setupTx restoreBase.resetTx
  subst hrole htrig hrepl
  by_cases h1 : opt.SuperUser = "" <;>
    by_cases h2 : opt.DisableTriggers = true <;>
    by_cases h3 : opt.UseSessionReplicationRoleReplica = true <;>
    simp [h1, h2, h3]

/-- Witness for C1 at the reference scenario: a fresh `non_super_user`
session with all three session mutations configured. -/
theorem claim1_setup_then_teardown_restores_session_witness :
    cSession.currentRole = cSession.sessionRole ∧
    cSession.triggersEnabled = true ∧
    cSession.replicationRole = "origin" ∧
    (newRestoreBase (some cEntry) cStorage cSettings).resetTx
      ((newRestoreBase (some cEntry) cStorage cSettings).setupTx cSession) = cSession :=
  ⟨rfl, rfl, rfl,
    claim1_setup_then_teardown_restores_session (some cEntry) cStorage cSettings cSession
      rfl rfl rfl⟩

/-- C2: `Transform` fails (returns a nil record with the formatted error)
whenever the resolved `min` bound is greater than or equal to the resolved
`max` bound. -/
theorem claim2_transform_errors_when_min_ge_max
    (rit : RandomIntTransformer) (r : Record) (minVal maxVal : Int)
    (hm : rit.minParam.scans rit.minParam.scanCount = Except.ok minVal)
    (hM : rit.maxParam.scans rit.maxParam.scanCount = Except.ok maxVal)
    (hge : maxVal ≤ minVal) :
    (rit.Transform r).result = Except.error
      ("max value must be greater than min: got min = " ++ toString minVal ++
        " max = " ++ toString maxVal) :=
  (Transform_min_ge_max rit r minVal maxVal hm hM hge).1

/-- Witness for C2 at the malformed bounds `min = 5, max = 3`. -/
theorem claim2_transform_errors_when_min_ge_max_witness :
    cBadRIT.minParam.scans cBadRIT.minParam.scanCount = Except.ok 5 ∧
    cBadRIT.maxParam.scans cBadRIT.maxParam.scanCount = Except.ok 3 ∧
    (3 : Int) ≤ 5 ∧
    (cBadRIT.Transform cRecord).result = Except.error
      "max value must be greater than min: got min = 5 max = 3" :=
  ⟨rfl, rfl, by decide,
    claim2_transform_errors_when_min_ge_max cBadRIT cRecord 5 3 rfl rfl (by decide)⟩

/-- C3 counterexample: constructing the transformer with bound parameters
resolving to `min = 5 >= max = 3` succeeds — the constructor returns a
usable instance, because the `min >= max` validation is commented out in
the source; it does not fail at construction time as the claim states. -/
theorem claim3_construction_with_min_ge_max_succeeds_counterexample :
    cBadMinParam.scans 0 = Except.ok 5 ∧
    cBadMaxParam.scans 0 = Except.ok 3 ∧
    constructionSucceeded
      (NewRandomIntTransformer cDriver 7 cColumnParam cBadMinParam cBadMaxParam
        cKeepNullParam) = true :=
  ⟨rfl, rfl, rfl⟩

/-- C3 amended: construction does not inspect the bound parameters at all —
with a resolvable column and a scannable `keep_null` it succeeds even when
the bounds resolve to `min >= max`; the `min >= max` failure is instead
raised by `Transform`. -/
theorem claim3_amended_bounds_unchecked_at_construction
    (driver : Driver) (seed : Nat) (cp : Param String) (mp mxp : Param Int)
    (kp : Param Bool) (name : String) (idx : Nat) (td : String) (kn : Bool)
    (r : Record) (minVal maxVal : Int)
    (hcp : cp.scans cp.scanCount = Except.ok name)
    (hdr : driver.getColumnByName name = some (idx, td))
    (hkp : kp.scans kp.scanCount = Except.ok kn)
    (hm : mp.scans mp.scanCount = Except.ok minVal)
    (hM : mxp.scans mxp.scanCount = Except.ok maxVal)
    (hge : maxVal ≤ minVal) :
    ∃ rit0 : RandomIntTransformer,
      NewRandomIntTransformer driver seed cp mp mxp kp = Except.ok rit0 ∧
      (rit0.Transform r).result = Except.error
        ("max value must be greater than min: got min = " ++ toString minVal ++
          " max = " ++ toString maxVal) := by
  refine ⟨_, NewRandomIntTransformer_ok driver seed cp mp mxp kp name idx td kn hcp hdr hkp, ?_⟩
  exact (Transform_min_ge_max _ r minVal maxVal hm hM hge).1

/-- Witness for the amended C3 at the malformed bounds `min = 5, max = 3`. -/
theorem claim3_amended_bounds_unchecked_at_construction_witness :
    cColumnParam.scans cColumnParam.scanCount = Except.ok "id" ∧
    cDriver.getColumnByName "id" = some (0, "int4") ∧
    cKeepNullParam.scans cKeepNullParam.scanCount = Except.ok true ∧
    cBadMinParam.scans cBadMinParam.scanCount = Except.ok 5 ∧
    cBadMaxParam.scans cBadMaxParam.scanCount = Except.ok 3 ∧
    (∃ rit0 : RandomIntTransformer,
      NewRandomIntTransformer cDriver 7 cColumnParam cBadMinParam cBadMaxParam
        cKeepNullParam = Except.ok rit0 ∧
      (rit0.Transform cRecord).result = Except.error
        "max value must be greater than min: got min = 5 max = 3") :=
  ⟨rfl, rfl, rfl, rfl, rfl,
    claim3_amended_bounds_unchecked_at_construction cDriver 7 cColumnParam cBadMinParam
      cBadMaxParam cKeepNullParam "id" 0 "int4" true cRecord 5 3 rfl rfl rfl rfl rfl
      (by decide)⟩

/-- C4: on a record whose bound column is non-null (or with keep-null
disabled), when the resolved bounds satisfy `min < max`, `Transform`
overwrites exactly the bound column in place with an integer in
`[min, max]`, leaves every other column slot unchanged, and returns the
same (mutated) record buffer rather than a fresh one. -/
theorem claim4_transform_overwrites_only_bound_column_in_range
    (rit : RandomIntTransformer) (r : Record) (minVal maxVal : Int) (val : RawValue)
    (hm : rit.minParam.scans rit.minParam.scanCount = Except.ok minVal)
    (hM : rit.maxParam.scans rit.maxParam.scanCount = Except.ok maxVal)
    (hlt : minVal < maxVal)
    (hget : r.GetRawColumnValueByIdx rit.columnIdx = Except.ok val)
    (hnn : val.isNull = false ∨ rit.keepNull = false) :
    (rit.Transform r).result = Except.ok ((rit.Transform r).buffer) ∧
    (rit.Transform r).buffer.slots.length = r.slots.length ∧
    (∀ j, j ≠ rit.columnIdx → (rit.Transform r).buffer.slots[j]? = r.slots[j]?) ∧
    (rit.Transform r).buffer.slots[rit.columnIdx]? =
      some ⟨RandomInt rit.rand minVal maxVal, false⟩ ∧
    minVal ≤ RandomInt rit.rand minVal maxVal ∧
    RandomInt rit.rand minVal maxVal ≤ maxVal := by
  obtain ⟨hbuf, hres⟩ := Transform_success rit r minVal maxVal val hm hM hlt hget hnn
  have hidx : rit.columnIdx < r.slots.length := by
    by_contra hcon
    have hnone : r.slots[rit.columnIdx]? = none := by
      rw [List.getElem?_eq_none_iff]
      omega
    simp [Record.GetRawColumnValueByIdx, hnone] at hget
  refine ⟨hres, ?_, ?_, ?_,
    (RandomInt_bounds rit.rand minVal maxVal hlt).1,
    (RandomInt_bounds rit.rand minVal maxVal hlt).2⟩
  · rw [hbuf]
    simp
  · intro j hj
    rw [hbuf]
    exact List.getElem?_set_ne (Ne.symm hj)
  · rw [hbuf]
    exact List.getElem?_set_eq_of_lt _ hidx

/-- Witness for C4: the well-formed instance transforming the non-null
record; the random value at seed 7 over `[1, 10]` is 8. -/
theorem claim4_transform_overwrites_only_bound_column_in_range_witness :
    cRIT.minParam.scans cRIT.minParam.scanCount = Except.ok 1 ∧
    cRIT.maxParam.scans cRIT.maxParam.scanCount = Except.ok 10 ∧
    (1 : Int) < 10 ∧
    cRecord.GetRawColumnValueByIdx cRIT.columnIdx = Except.ok ⟨5, false⟩ ∧
    ((⟨5, false⟩ : RawValue).isNull = false ∨ cRIT.keepNull = false) ∧
    ((cRIT.Transform cRecord).result = Except.ok ((cRIT.Transform cRecord).buffer) ∧
      (cRIT.Transform cRecord).buffer.slots.length = cRecord.slots.length ∧
      (∀ j, j ≠ cRIT.columnIdx →
        (cRIT.Transform cRecord).buffer.slots[j]? = cRecord.slots[j]?) ∧
      (cRIT.Transform cRecord).buffer.slots[cRIT.columnIdx]? =
        some ⟨RandomInt cRIT.rand 1 10, false⟩ ∧
      (1 : Int) ≤ RandomInt cRIT.rand 1 10 ∧ RandomInt cRIT.rand 1 10 ≤ 10) :=
  ⟨rfl, rfl, by decide, rfl, Or.inl rfl,
    claim4_transform_overwrites_only_bound_column_in_range cRIT cRecord 1 10 ⟨5, false⟩
      rfl rfl (by decide) rfl (Or.inl rfl)⟩

/-- C5: the `keep_null` parameter defaults to `"true"` when not supplied
(resolving through the registered parameter definition), and on a record
whose bound column is null, `Transform` returns the record unchanged when
keep-null is set, while with keep-null disabled the null column still
receives a generated (non-null) value. -/
theorem claim5_keep_null_behavior
    (rit : RandomIntTransformer) (r : Record) (minVal maxVal : Int) (val : RawValue)
    (hm : rit.minParam.scans rit.minParam.scanCount = Except.ok minVal)
    (hM : rit.maxParam.scans rit.maxParam.scanCount = Except.ok maxVal)
    (hlt : minVal < maxVal)
    (hget : r.GetRawColumnValueByIdx rit.columnIdx = Except.ok val)
    (hnull : val.isNull = true) :
    (RandomIntTransformerDefinition.parameters.map
      (fun d => (d.name, resolveRawParamValue none d)))[3]? =
      some ("keep_null", some "true") ∧
    scanBool "true" = Except.ok true ∧
    (rit.keepNull = true →
      (rit.Transform r).result = Except.ok r ∧ (rit.Transform r).buffer = r) ∧
    (rit.keepNull = false →
      (rit.Transform r).result = Except.ok ((rit.Transform r).buffer) ∧
      (rit.Transform r).buffer.slots[rit.columnIdx]? =
        some ⟨RandomInt rit.rand minVal maxVal, false⟩) := by
  refine ⟨rfl, rfl, ?_, ?_⟩
  · intro hkn
    exact Transform_null_kept rit r minVal maxVal val hm hM hlt hget hnull hkn
  · intro hkn
    obtain ⟨hbuf, hres⟩ :=
      Transform_success rit r minVal maxVal val hm hM hlt hget (Or.inr hkn)
    have hidx : rit.columnIdx < r.slots.length := by
      by_contra hcon
      have hnone : r.slots[rit.columnIdx]? = none := by
        rw [List.getElem?_eq_none_iff]
        omega
      simp [Record.GetRawColumnValueByIdx, hnone] at hget
    refine ⟨hres, ?_⟩
    rw [hbuf]
    exact List.getElem?_set_eq_of_lt _ hidx

/-- Witness for C5: the keep-null instance passes the null record through
unchanged. -/
theorem claim5_keep_null_behavior_witness :
    cRIT.minParam.scans cRIT.minParam.scanCount = Except.ok 1 ∧
    cRIT.maxParam.scans cRIT.maxParam.scanCount = Except.ok 10 ∧
    (1 : Int) < 10 ∧
    cNullRecord.GetRawColumnValueByIdx cRIT.columnIdx = Except.ok ⟨0, true⟩ ∧
    (⟨0, true⟩ : RawValue).isNull = true ∧
    ((RandomIntTransformerDefinition.parameters.map
      (fun d => (d.name, resolveRawParamValue none d)))[3]? =
      some ("keep_null", some "true") ∧
    scanBool "true" = Except.ok true ∧
    (cRIT.keepNull = true →
      (cRIT.Transform cNullRecord).result = Except.ok cNullRecord ∧
      (cRIT.Transform cNullRecord).buffer = cNullRecord) ∧
    (cRIT.keepNull = false →
      (cRIT.Transform cNullRecord).result =
        Except.ok ((cRIT.Transform cNullRecord).buffer) ∧
      (cRIT.Transform cNullRecord).buffer.slots[cRIT.columnIdx]? =
        some ⟨RandomInt cRIT.rand 1 10, false⟩)) :=
  ⟨rfl, rfl, by decide, rfl, rfl,
    claim5_keep_null_behavior cRIT cNullRecord 1 10 ⟨0, true⟩ rfl rfl (by decide) rfl rfl⟩

/-- C6 counterexample: with fully static `min`/`max` parameters, after
construction the `min` handle has been scanned zero times (not once as the
claim states), and one `Transform` call scans both `min` and `max` once —
the bounds are re-scanned per row even though they are static. -/
theorem claim6_min_max_not_scanned_at_construction_counterexample :
    minMaxScanCountsAfterConstructionAndTransform
      (NewRandomIntTransformer cDriver 7 cColumnParam cMinParam cMaxParam cKeepNullParam)
      cRecord = (0, 1, 1) :=
  rfl

/-- C6 amended: construction scans the static `column` and `keep_null`
parameters exactly once each and caches their values, but stores the
`min`/`max` handles untouched (zero scans); every `Transform` call then
re-scans `min` and `max` once each, whether or not they are dynamic. -/
theorem claim6_amended_bounds_rescanned_every_transform
    (driver : Driver) (seed : Nat) (cp : Param String) (mp mxp : Param Int)
    (kp : Param Bool) (rit0 : RandomIntTransformer) (r : Record) (minVal : Int)
    (hc : NewRandomIntTransformer driver seed cp mp mxp kp = Except.ok rit0)
    (hm : rit0.minParam.scans rit0.minParam.scanCount = Except.ok minVal) :
    rit0.minParam = mp ∧ rit0.maxParam = mxp ∧
    rit0.columnParam.scanCount = cp.scanCount + 1 ∧
    rit0.keepNullParam.scanCount = kp.scanCount + 1 ∧
    (rit0.Transform r).self.minParam.scanCount = rit0.minParam.scanCount + 1 ∧
    (rit0.Transform r).self.maxParam.scanCount = rit0.maxParam.scanCount + 1 := by
  cases hcp : cp.scans cp.scanCount with
  | error e => simp [NewRandomIntTransformer, Param.scan, hcp] at hc
  | ok name =>
    cases hdr : driver.getColumnByName name with
    | none => simp [NewRandomIntTransformer, Param.scan, hcp, hdr] at hc
    | some p =>
      obtain ⟨idx, td⟩ := p
      cases hkp : kp.scans kp.scanCount with
      | error e => simp [NewRandomIntTransformer, Param.scan, hcp, hdr, hkp] at hc
      | ok kn =>
        rw [NewRandomIntTransformer_ok driver seed cp mp mxp kp name idx td kn
          hcp hdr hkp] at hc
        injection hc with h
        subst h
        exact ⟨rfl, rfl, rfl, rfl, (Transform_scan_counts _ r minVal hm).1,
          (Transform_scan_counts _ r minVal hm).2⟩

/-- Witness for the amended C6 at the static concrete parameters. -/
theorem claim6_amended_bounds_rescanned_every_transform_witness :
    NewRandomIntTransformer cDriver 7 cColumnParam cMinParam cMaxParam cKeepNullParam =
      Except.ok cRIT ∧
    cRIT.minParam.scans cRIT.minParam.scanCount = Except.ok 1 ∧
    (cRIT.minParam = cMinParam ∧ cRIT.maxParam = cMaxParam ∧
      cRIT.columnParam.scanCount = cColumnParam.scanCount + 1 ∧
      cRIT.keepNullParam.scanCount = cKeepNullParam.scanCount + 1 ∧
      (cRIT.Transform cRecord).self.minParam.scanCount = cRIT.minParam.scanCount + 1 ∧
      (cRIT.Transform cRecord).self.maxParam.scanCount = cRIT.maxParam.scanCount + 1) :=
  ⟨rfl, rfl,
    claim6_amended_bounds_rescanned_every_transform cDriver 7 cColumnParam cMinParam
      cMaxParam cKeepNullParam cRIT cRecord 1 rfl rfl⟩

/-- C7: constructing the transformer with a column name the driver cannot
resolve always fails with a not-found error whose message names the
missing column (it factors as `pre ++ name ++ post`), and never returns an
instance. -/
theorem claim7_unknown_column_construction_fails_not_found
    (driver : Driver) (seed : Nat) (cp : Param String) (mp mxp : Param Int)
    (kp : Param Bool) (name : String)
    (hcp : cp.scans cp.scanCount = Except.ok name)
    (hdr : driver.getColumnByName name = none) :
    NewRandomIntTransformer driver seed cp mp mxp kp =
      Except.error ("column with name " ++ name ++ " is not found") ∧
    ∃ pre post : String,
      ("column with name " ++ name ++ " is not found") = pre ++ (name ++ post) := by
  constructor
  · simp [NewRandomIntTransformer, Param.scan, hcp, hdr]
  · exact ⟨"column with name ", " is not found", by rw [String.append_assoc]⟩

/-- Witness for C7 at the unresolvable column name `no_such_column`. -/
theorem claim7_unknown_column_construction_fails_not_found_witness :
    cMissingColumnParam.scans cMissingColumnParam.scanCount =
      Except.ok "no_such_column" ∧
    cDriver.getColumnByName "no_such_column" = none ∧
    (NewRandomIntTransformer cDriver 7 cMissingColumnParam cMinParam cMaxParam
      cKeepNullParam =
      Except.error ("column with name " ++ "no_such_column" ++ " is not found") ∧
    ∃ pre post : String,
      ("column with name " ++ "no_such_column" ++ " is not found") =
        pre ++ ("no_such_column" ++ post)) :=
  ⟨rfl, rfl,
    claim7_unknown_column_construction_fails_not_found cDriver 7 cMissingColumnParam
      cMinParam cMaxParam cKeepNullParam "no_such_column" rfl rfl⟩

/-- C8: for every successfully constructed instance, `GetAffectedColumns`
returns exactly the singleton map from the resolved column index to the
column name, and neither `Init`, nor `Done`, nor `Transform` on any record
ever changes it. -/
theorem claim8_affected_columns_fixed_singleton
    (driver : Driver) (seed : Nat) (cp : Param String) (mp mxp : Param Int)
    (kp : Param Bool) (name : String) (idx : Nat) (td : String) (kn : Bool)
    (r : Record) (rit0 : RandomIntTransformer)
    (hcp : cp.scans cp.scanCount = Except.ok name)
    (hdr : driver.getColumnByName name = some (idx, td))
    (hkp : kp.scans kp.scanCount = Except.ok kn)
    (hc : NewRandomIntTransformer driver seed cp mp mxp kp = Except.ok rit0) :
    rit0.GetAffectedColumns = [(idx, name)] ∧
    (rit0.Init.2).GetAffectedColumns = rit0.GetAffectedColumns ∧
    (rit0.Done.2).GetAffectedColumns = rit0.GetAffectedColumns ∧
    (rit0.Transform r).self.GetAffectedColumns = rit0.GetAffectedColumns := by
  rw [NewRandomIntTransformer_ok driver seed cp mp mxp kp name idx td kn hcp hdr hkp] at hc
  injection hc with h
  subst h
  exact ⟨rfl, rfl, rfl, Transform_preserves_affectedColumns _ r⟩

/-- Witness for C8 at the concrete construction over column `id`. -/
theorem claim8_affected_columns_fixed_singleton_witness :
    cColumnParam.scans cColumnParam.scanCount = Except.ok "id" ∧
    cDriver.getColumnByName "id" = some (0, "int4") ∧
    cKeepNullParam.scans cKeepNullParam.scanCount = Except.ok true ∧
    NewRandomIntTransformer cDriver 7 cColumnParam cMinParam cMaxParam cKeepNullParam =
      Except.ok cRIT ∧
    (cRIT.GetAffectedColumns = [(0, "id")] ∧
      (cRIT.Init.2).GetAffectedColumns = cRIT.GetAffectedColumns ∧
      (cRIT.Done.2).GetAffectedColumns = cRIT.GetAffectedColumns ∧
      (cRIT.Transform cRecord).self.GetAffectedColumns = cRIT.GetAffectedColumns) :=
  ⟨rfl, rfl, rfl, rfl,
    claim8_affected_columns_fixed_singleton cDriver 7 cColumnParam cMinParam cMaxParam
      cKeepNullParam "id" 0 "int4" true cRecord cRIT rfl rfl rfl rfl⟩

/-- C9: when the entry's backing object holds the compressed encoding of a
payload, `getObject` returns a stream whose decompressed contents equal,
byte for byte, the payload originally stored. -/
theorem claim9_fetch_payload_roundtrip
    (entry : Entry) (st : Storage) (opt : DataSectionSettings) (f : String)
    (payload : List Nat)
    (hf : entry.FileName = some f)
    (hst : st.getObject f = Except.ok (rleCompress payload)) :
    (newRestoreBase (some entry) st opt).getObject = Except.ok payload := by
  simp [newRestoreBase, restoreBase.getObject, hf, hst, rleDecompress_rleCompress]

/-- Witness for C9 at the concrete payload and object store. -/
theorem claim9_fetch_payload_roundtrip_witness :
    cEntry.FileName = some "test.tar.gz" ∧
    cStorage.getObject "test.tar.gz" = Except.ok (rleCompress cPayload) ∧
    (newRestoreBase (some cEntry) cStorage cSettings).getObject = Except.ok cPayload :=
  ⟨rfl, rfl,
    claim9_fetch_payload_roundtrip cEntry cStorage cSettings "test.tar.gz" cPayload
      rfl rfl⟩

/-- C10: whenever `Transform` returns an error (so a nil record, modelled
as the `Except.error` result carrying no record), the input record's
column slots are left unmodified — no partial mutation on any error
path. -/
theorem claim10_transform_error_no_mutation
    (rit : RandomIntTransformer) (r : Record) (e : String)
    (herr : (rit.Transform r).result = Except.error e) :
    (rit.Transform r).buffer = r :=
  Transform_error_buffer_eq rit r e herr

/-- Witness for C10 at the malformed-bounds error path. -/
theorem claim10_transform_error_no_mutation_witness :
    (cBadRIT.Transform cRecord).result = Except.error
      "max value must be greater than min: got min = 5 max = 3" ∧
    (cBadRIT.Transform cRecord).buffer = cRecord :=
  ⟨rfl,
    claim10_transform_error_no_mutation cBadRIT cRecord
      "max value must be greater than min: got min = 5 max = 3" rfl⟩

end Greenmask
